import Mathlib

/-!
Verification of the configuration-assembly examples in this repository
(`enhanced_agent_example.py` and `graph_config_example.py`).

The programs build nested Python dictionaries (configuration records).
We shallowly embed Python dict values as an inductive `Value`, dicts as
insertion-ordered association lists with Python's `d[k] = v` semantics
(replace in place if the key exists, else append), and each function or
builder method of the source as a Lean definition.
-/

/-- A Python value as used by these two scripts: strings, ints, lists,
dicts (insertion-ordered association lists), the opaque checkpoint-store
handle returned by `SqliteSaver.from_conn_string` (carrying its connection
string), and lambdas from strings to strings (the graph-operation
callbacks). -/
inductive Value where
  | str : String → Value
  | int : Int → Value
  | list : List Value → Value
  | dict : List (String × Value) → Value
  | store : String → Value
  | func : (String → String) → Value

/-- Python `d[k] = v` on an insertion-ordered dict: replace the value at
the existing key in place, else append the new pair at the end. -/
def insertD (d : List (String × Value)) (k : String) (v : Value) :
    List (String × Value) :=
  match d with
  | [] => [(k, v)]
  | (k', v') :: rest =>
      if k' = k then (k', v) :: rest else (k', v') :: insertD rest k v

/-- Python `d.get(k)`: first (hence, under the unique-key invariant the
operations maintain, only) binding of `k`. -/
def dlookup (d : List (String × Value)) (k : String) : Option Value :=
  match d with
  | [] => none
  | (k', v) :: rest => if k' = k then some v else dlookup rest k

/-- Python `list(d.keys())`. -/
def dkeys (d : List (String × Value)) : List String := d.map Prod.fst

/-- A Python dict display `{k1: v1, ..., kn: vn}` (possibly with splatted
`**kwargs`): entries are inserted left to right, a later duplicate key
overwriting an earlier one in place. -/
def ofPairs (ps : List (String × Value)) : List (String × Value) :=
  ps.foldl (fun d kv => insertD d kv.1 kv.2) []

/-! ## Embedding of `enhanced_agent_example.py` -/

/-- Tool `add_numbers(a, b)`: "Add two numbers together." -/
def add_numbers (a b : Int) : Int := a + b

/-- Tool `get_weather(city)`: returns the f-string
`f"The weather in {city} is sunny and 72°F"`. -/
def get_weather (city : String) : String :=
  "The weather in " ++ city ++ " is sunny and 72°F"

/-- Function `create_enhanced_config(thread_id="1")`: the literal nested dict the
function returns. All dict displays below have pairwise distinct literal
keys, so they are written as plain association lists (equal to their
`ofPairs` normal forms). -/
def create_enhanced_config (thread_id : optParam String "1") : Value :=
  .dict [("configurable", .dict [
    ("thread_id", .str thread_id),
    ("user_id", .str "user123"),
    ("session_id", .str "session456"),
    ("graph_db", .dict [
      ("type", .str "sqlite"),
      ("path", .str "./knowledge_graph.db"),
      ("schema", .dict [
        ("nodes", .list [.str "concepts", .str "entities", .str "relationships"]),
        ("edges", .list [.str "relates_to", .str "part_of", .str "similar_to"])])]),
    ("memory", .dict [
      ("type", .str "sqlite"),
      ("table", .str "conversation_memory"),
      ("max_tokens", .int 4000),
      ("retention_days", .int 30)]),
    ("checkpoint_store", .store "sqlite:///checkpoints.db"),
    ("metadata", .dict [
      ("environment", .str "development"),
      ("version", .str "1.0.0"),
      ("features", .list [.str "graph_db", .str "memory", .str "checkpointing"]),
      ("graph_queries", .dict [
        ("find_related", .str "MATCH (n)-[r]->(m) WHERE n.id = $node_id RETURN m, r"),
        ("get_entities", .str "MATCH (n:entity) RETURN n LIMIT 10")])])])]

/-- The `graph_operations` dict of `integrate_with_graph_db`: three
string-to-string lambdas keyed by operation name. -/
def graph_operations : List (String × Value) :=
  [("store_entity", .func (fun entity => "Stored entity: " ++ entity)),
   ("find_relationships", .func (fun entity => "Found relationships for: " ++ entity)),
   ("query_graph", .func (fun query => "Executed query: " ++ query))]

/-- The inner `configurable` dict of a configuration record (empty when
the record is not of the expected shape; every record built here is). -/
def configurableOfList (d : List (String × Value)) : List (String × Value) :=
  match dlookup d "configurable" with
  | some (.dict c) => c
  | _ => []

/-- Projection to the `configurable` dict of a top-level configuration `Value`. -/
def configurableOf (v : Value) : List (String × Value) :=
  match v with
  | .dict d => configurableOfList d
  | _ => []

/-- The Python statement `config["configurable"][k] = v` on a
configuration record. -/
def setConfigurable (v : Value) (k : String) (w : Value) : Value :=
  match v with
  | .dict d => .dict (insertD d "configurable" (.dict (insertD (configurableOfList d) k w)))
  | other => other

/-- Function `integrate_with_graph_db()`: takes `create_enhanced_config("graph_conversation")`
and assigns `config["configurable"]["graph_operations"] = graph_operations`. -/
def integrate_with_graph_db : Value :=
  setConfigurable (create_enhanced_config "graph_conversation")
    "graph_operations" (.dict graph_operations)

/-! ## Embedding of `graph_config_example.py`

The builder's Python state is the mutable dict `self.config`; each method
mutates `self.config["configurable"]` and returns `self`.  We embed the
state as a structure holding that dict and each method as a state
transformer `GraphConfigBuilder → GraphConfigBuilder`. -/

/-- The builder's state: `self.config`, the outer configuration dict. -/
structure GraphConfigBuilder where
  config : List (String × Value)

/-- Constructor `GraphConfigBuilder.__init__`: sets `self.config` to a dict with one key, `configurable`, mapped to an empty dict. -/
def GraphConfigBuilder.init : GraphConfigBuilder :=
  ⟨[("configurable", .dict [])]⟩

/-- The Python statement `self.config["configurable"][k] = v`. -/
def GraphConfigBuilder.setCfg (b : GraphConfigBuilder) (k : String) (v : Value) :
    GraphConfigBuilder :=
  ⟨insertD b.config "configurable" (.dict (insertD (configurableOfList b.config) k v))⟩

/-- Method `add_thread_id(thread_id)`. -/
def GraphConfigBuilder.add_thread_id (b : GraphConfigBuilder) (thread_id : String) :
    GraphConfigBuilder :=
  b.setCfg "thread_id" (.str thread_id)

/-- Method `add_user_context(user_id, session_id)`: two successive assignments. -/
def GraphConfigBuilder.add_user_context (b : GraphConfigBuilder)
    (user_id session_id : String) : GraphConfigBuilder :=
  (b.setCfg "user_id" (.str user_id)).setCfg "session_id" (.str session_id)

/-- Method `add_neo4j_graph(uri, user, password, database="neo4j")`. -/
def GraphConfigBuilder.add_neo4j_graph (b : GraphConfigBuilder)
    (uri user password : String) (database : optParam String "neo4j") :
    GraphConfigBuilder :=
  b.setCfg "graph_db" (.dict [
    ("type", .str "neo4j"),
    ("uri", .str uri),
    ("user", .str user),
    ("password", .str password),
    ("database", .str database)])

/-- Method `add_sqlite_graph(db_path)`. -/
def GraphConfigBuilder.add_sqlite_graph (b : GraphConfigBuilder) (db_path : String) :
    GraphConfigBuilder :=
  b.setCfg "graph_db" (.dict [
    ("type", .str "sqlite"),
    ("path", .str db_path)])

/-- Method `add_memory_config(memory_type, **kwargs)`: assigns the dict display
`{"type": memory_type, **kwargs}`, so a `"type"` key splatted in from
`kwargs` overwrites the tag (later entry wins). -/
def GraphConfigBuilder.add_memory_config (b : GraphConfigBuilder)
    (memory_type : String) (kwargs : List (String × Value)) : GraphConfigBuilder :=
  b.setCfg "memory" (.dict (ofPairs (("type", .str memory_type) :: kwargs)))

/-- Method `add_checkpointing(checkpoint_path)`: stores the handle
`SqliteSaver.from_conn_string(checkpoint_path)`. -/
def GraphConfigBuilder.add_checkpointing (b : GraphConfigBuilder)
    (checkpoint_path : String) : GraphConfigBuilder :=
  b.setCfg "checkpoint_store" (.store checkpoint_path)

/-- Method `add_custom_metadata(**metadata)`: assigns the kwargs dict verbatim. -/
def GraphConfigBuilder.add_custom_metadata (b : GraphConfigBuilder)
    (metadata : List (String × Value)) : GraphConfigBuilder :=
  b.setCfg "metadata" (.dict (ofPairs metadata))

/-- Method `build()`: `return self.config` — reads the state and leaves it
unchanged, so as a state transformer it returns the accumulated record
paired with the unmodified builder. -/
def GraphConfigBuilder.build (b : GraphConfigBuilder) :
    Value × GraphConfigBuilder :=
  (.dict b.config, b)

/-- Embeds `os.getenv(key, default)` over an explicit environment. -/
def getenv (env : String → Option String) (key default : String) : String :=
  (env key).getD default

/-- Function `create_advanced_config()`, parameterized by the process environment
consulted by its single `os.getenv("NEO4J_PASSWORD", "password")` call. -/
def create_advanced_config (env : String → Option String) : Value :=
  (((((GraphConfigBuilder.init.add_thread_id
        "conversation_1").add_user_context "user123" "session456").add_neo4j_graph
        "bolt://localhost:7687" "neo4j" (getenv env "NEO4J_PASSWORD" "password")
        "langgraph").add_memory_config "neo4j"
        [("collection", .str "conversations"),
         ("max_tokens", .int 4000)]).add_checkpointing
        "sqlite:///checkpoints.db").add_custom_metadata
        [("environment", .str "production"),
         ("version", .str "1.0.0"),
         ("features", .list [.str "graph_db", .str "memory", .str "checkpointing"])]
    |>.build.1

/-- Function `create_sqlite_config()`. -/
def create_sqlite_config : Value :=
  (((GraphConfigBuilder.init.add_thread_id
      "thread_2").add_sqlite_graph "./knowledge_graph.db").add_memory_config
      "sqlite" [("table", .str "conversation_memory")]).add_custom_metadata
      [("graph_schema", .dict [
        ("nodes", .list [.str "concepts", .str "entities", .str "relationships"]),
        ("edges", .list [.str "relates_to", .str "part_of", .str "similar_to"])])]
  |>.build.1

/-- The `graph_db` dict of a configuration record. -/
def graphDbOf (v : Value) : List (String × Value) :=
  match dlookup (configurableOf v) "graph_db" with
  | some (.dict g) => g
  | _ => []

/-- The `memory` dict of a configuration record. -/
def memoryOf (v : Value) : List (String × Value) :=
  match dlookup (configurableOf v) "memory" with
  | some (.dict m) => m
  | _ => []

/-- The `password` entry of a record's `graph_db` dict. -/
def passwordOf (v : Value) : Option Value :=
  dlookup (graphDbOf v) "password"

/-- The record with its `configurable.graph_db.password` entry blanked;
used to state that nothing else in `create_advanced_config` depends on
the environment. -/
def maskPassword (v : Value) : Value :=
  match v with
  | .dict d => .dict (insertD d "configurable" (.dict (insertD
      (configurableOfList d) "graph_db" (.dict (insertD
        (graphDbOf (.dict d)) "password" (.str ""))))))
  | other => other

/-- Spec-side shape (written from the spec's words, to compare the code
against): the local-file graph-database variant, a record with exactly the
fields type = "sqlite" and path. -/
def isSqliteVariant (g : List (String × Value)) : Prop :=
  ∃ p, g = [("type", .str "sqlite"), ("path", .str p)]

/-- Spec-side shape (written from the spec's words, to compare the code
against): the network graph-database variant, a record with exactly the
fields type = "neo4j", uri, user, password, database. -/
def isNeo4jVariant (g : List (String × Value)) : Prop :=
  ∃ uri user password database,
    g = [("type", .str "neo4j"), ("uri", .str uri), ("user", .str user),
         ("password", .str password), ("database", .str database)]

/-- An environment in which NEO4J_PASSWORD is set to "s3cret". -/
def envWithPassword : String → Option String :=
  fun k => if k = "NEO4J_PASSWORD" then some "s3cret" else none

/-- An environment with no variables set. -/
def envEmpty : String → Option String := fun _ => none

/-! ## Dictionary lemmas -/

/-- Looking up after a Python dict assignment: the assigned key now maps to
the new value; every other key is untouched. -/
theorem dlookup_insertD (d : List (String × Value)) (k k' : String) (v : Value) :
    dlookup (insertD d k v) k' = if k = k' then some v else dlookup d k' := by
  induction d with
  | nil => simp [insertD, dlookup]
  | cons p rest ih =>
      obtain ⟨a, w⟩ := p
      by_cases hak : a = k
      · subst hak
        simp only [insertD, if_pos rfl]
        by_cases hk' : a = k'
        · subst hk'
          simp [dlookup]
        · simp [dlookup, hk']
      · simp only [insertD, if_neg hak]
        by_cases hk' : a = k'
        · subst hk'
          have hka : ¬k = a := fun h => hak h.symm
          simp [dlookup, if_neg hka]
        · simp [dlookup, hk', ih]

/-- Lookup distributes over list concatenation, earlier entries first. -/
theorem dlookup_append (xs ys : List (String × Value)) (k : String) :
    dlookup (xs ++ ys) k = (dlookup xs k).or (dlookup ys k) := by
  induction xs with
  | nil => simp [dlookup]
  | cons p rest ih =>
      obtain ⟨a, w⟩ := p
      by_cases h : a = k <;> simp [dlookup, h, ih]

/-- Lookup of a key absent from the key list fails. -/
theorem dlookup_eq_none (d : List (String × Value)) (k : String)
    (h : k ∉ dkeys d) : dlookup d k = none := by
  induction d with
  | nil => rfl
  | cons p rest ih =>
      obtain ⟨a, w⟩ := p
      simp only [dkeys, List.map_cons, List.mem_cons, not_or] at h
      have hka : ¬a = k := fun hak => h.1 hak.symm
      simp [dlookup, hka, ih h.2]

/-- On a dict with pairwise distinct keys, lookup ignores entry order. -/
theorem dlookup_reverse (d : List (String × Value)) (k : String)
    (h : (dkeys d).Nodup) : dlookup d.reverse k = dlookup d k := by
  induction d with
  | nil => rfl
  | cons p rest ih =>
      obtain ⟨a, w⟩ := p
      simp only [dkeys, List.map_cons, List.nodup_cons] at h
      rw [List.reverse_cons, dlookup_append]
      by_cases hk : a = k
      · subst hk
        have h1 : dlookup rest a = none := dlookup_eq_none rest a h.1
        have h2 : dlookup rest.reverse a = none := by
          refine dlookup_eq_none rest.reverse a ?_
          simpa [dkeys, List.map_reverse] using h.1
        simp [dlookup, h1, h2]
      · simp [dlookup, hk, ih h.2, Option.or_none]

/-- A dict display resolves a key to its last occurrence among the pairs
(later duplicates overwrite earlier ones). -/
theorem dlookup_foldl (ps d : List (String × Value)) (k : String) :
    dlookup (ps.foldl (fun d kv => insertD d kv.1 kv.2) d) k =
    (dlookup ps.reverse k).or (dlookup d k) := by
  induction ps generalizing d with
  | nil => simp [dlookup]
  | cons p ps ih =>
      obtain ⟨a, w⟩ := p
      rw [List.foldl_cons, ih, List.reverse_cons, dlookup_append, dlookup_insertD]
      by_cases hk : a = k <;> simp [dlookup, hk, Option.or_assoc]

/-- Lookup in a dict display is lookup of the last matching pair. -/
theorem dlookup_ofPairs (ps : List (String × Value)) (k : String) :
    dlookup (ofPairs ps) k = dlookup ps.reverse k := by
  rw [ofPairs, dlookup_foldl]
  simp [dlookup]

/-! ## Builder lemmas -/

/-- The assignment `self.config["configurable"][k] = v` updates exactly
the inner `configurable` dict. -/
theorem configurableOfList_setCfg (b : GraphConfigBuilder) (k : String) (v : Value) :
    configurableOfList (b.setCfg k v).config =
    insertD (configurableOfList b.config) k v := by
  unfold GraphConfigBuilder.setCfg configurableOfList
  rw [dlookup_insertD]
  simp

/-- Lookup in the `configurable` dict after one builder assignment. -/
theorem dlookup_setCfg (b : GraphConfigBuilder) (k k' : String) (v : Value) :
    dlookup (configurableOfList (b.setCfg k v).config) k' =
    if k = k' then some v else dlookup (configurableOfList b.config) k' := by
  rw [configurableOfList_setCfg, dlookup_insertD]

/-- Whatever the prior builder state, `add_neo4j_graph` leaves `graph_db`
equal to the five-field neo4j dict. -/
theorem graphDb_add_neo4j (b : GraphConfigBuilder)
    (uri user password database : String) :
    graphDbOf (b.add_neo4j_graph uri user password database).build.1 =
      [("type", .str "neo4j"), ("uri", .str uri), ("user", .str user),
       ("password", .str password), ("database", .str database)] := by
  unfold graphDbOf GraphConfigBuilder.build GraphConfigBuilder.add_neo4j_graph
  simp only [configurableOf]
  rw [dlookup_setCfg]
  simp

/-- Whatever the prior builder state, `add_sqlite_graph` leaves `graph_db`
equal to the two-field sqlite dict. -/
theorem graphDb_add_sqlite (b : GraphConfigBuilder) (db_path : String) :
    graphDbOf (b.add_sqlite_graph db_path).build.1 =
      [("type", .str "sqlite"), ("path", .str db_path)] := by
  unfold graphDbOf GraphConfigBuilder.build GraphConfigBuilder.add_sqlite_graph
  simp only [configurableOf]
  rw [dlookup_setCfg]
  simp

/-- Whatever the prior builder state, `add_custom_metadata` leaves
`metadata` equal to the dict built from exactly its keyword fields. -/
theorem metadata_add_custom (b : GraphConfigBuilder) (m : List (String × Value)) :
    dlookup (configurableOf (b.add_custom_metadata m).build.1) "metadata" =
      some (.dict (ofPairs m)) := by
  unfold GraphConfigBuilder.build GraphConfigBuilder.add_custom_metadata
  simp only [configurableOf]
  rw [dlookup_setCfg]
  simp

/-- Whatever the prior builder state, `add_memory_config` leaves `memory`
equal to the dict display merging the type tag and the keyword fields. -/
theorem memory_add_memory (b : GraphConfigBuilder) (memory_type : String)
    (kwargs : List (String × Value)) :
    memoryOf (b.add_memory_config memory_type kwargs).build.1 =
      ofPairs (("type", .str memory_type) :: kwargs) := by
  unfold memoryOf GraphConfigBuilder.build GraphConfigBuilder.add_memory_config
  simp only [configurableOf]
  rw [dlookup_setCfg]
  simp

/-! ## Claim theorems -/

/-- C1, counterexample: the claim as stated is false — the `configurable`
mapping returned by `create_enhanced_config` (called with no arguments)
has seven keys, not five. -/
theorem C1_counterexample :
    (dkeys (configurableOf create_enhanced_config)).length = 7 ∧
    ¬(dkeys (configurableOf create_enhanced_config)).length = 5 := by
  decide

/-- C1 (amended): for every string argument, and for the no-argument call
(which defaults the thread id to "1"), `create_enhanced_config` returns a
record whose `configurable` mapping contains exactly the seven keys
thread_id, user_id, session_id, graph_db, memory, checkpoint_store,
metadata, and the no-argument call yields thread_id equal to "1". -/
theorem C1_enhanced_config_keys (thread_id : String) :
    dkeys (configurableOf (create_enhanced_config thread_id)) =
      ["thread_id", "user_id", "session_id", "graph_db", "memory",
       "checkpoint_store", "metadata"] ∧
    dlookup (configurableOf create_enhanced_config) "thread_id" =
      some (.str "1") :=
  ⟨rfl, rfl⟩

/-- C2, counterexample: the claim as stated is false — the record produced
by the direct constructor `create_enhanced_config` has a `graph_db` whose
fields are type, path and schema, which is neither of the two exact
variant shapes the spec describes. -/
theorem C2_counterexample :
    dkeys (graphDbOf create_enhanced_config) = ["type", "path", "schema"] ∧
    ¬isSqliteVariant (graphDbOf create_enhanced_config) ∧
    ¬isNeo4jVariant (graphDbOf create_enhanced_config) := by
  refine ⟨rfl, ?_, ?_⟩
  · rintro ⟨p, hp⟩
    have h2 := congrArg dkeys hp
    rw [show dkeys (graphDbOf create_enhanced_config) =
        ["type", "path", "schema"] from rfl] at h2
    simp [dkeys] at h2
  · rintro ⟨uri, user, password, database, hp⟩
    have h2 := congrArg dkeys hp
    rw [show dkeys (graphDbOf create_enhanced_config) =
        ["type", "path", "schema"] from rfl] at h2
    simp [dkeys] at h2

/-- C2 (amended): the builder operations write exactly the two variant
shapes — `add_neo4j_graph` the network variant, `add_sqlite_graph` the
local-file variant — from any prior builder state; the direct constructor
writes the local-file variant extended by one additional schema field
(keys exactly type, path, schema, with type = "sqlite" and the literal
path). -/
theorem C2_graph_db_shapes (b b' : GraphConfigBuilder)
    (uri user password database db_path : String) :
    isNeo4jVariant (graphDbOf (b.add_neo4j_graph uri user password database).build.1) ∧
    isSqliteVariant (graphDbOf (b'.add_sqlite_graph db_path).build.1) ∧
    dkeys (graphDbOf create_enhanced_config) = ["type", "path", "schema"] ∧
    dlookup (graphDbOf create_enhanced_config) "type" = some (.str "sqlite") ∧
    dlookup (graphDbOf create_enhanced_config) "path" =
      some (.str "./knowledge_graph.db") :=
  ⟨⟨uri, user, password, database, graphDb_add_neo4j b uri user password database⟩,
   ⟨db_path, graphDb_add_sqlite b' db_path⟩, rfl, rfl, rfl⟩

/-- C3: from any builder state, calling `add_sqlite_graph(db_path)` after
`add_neo4j_graph(uri, user, password, database)` leaves the built record's
`graph_db` equal to exactly the local-file variant, with none of the
network variant's fields surviving (last write wins). -/
theorem C3_sqlite_overwrites_neo4j (b : GraphConfigBuilder)
    (uri user password database db_path : String) :
    graphDbOf ((b.add_neo4j_graph uri user password database).add_sqlite_graph
        db_path).build.1 =
      [("type", .str "sqlite"), ("path", .str db_path)] ∧
    dlookup (graphDbOf ((b.add_neo4j_graph uri user password
        database).add_sqlite_graph db_path).build.1) "uri" = none ∧
    dlookup (graphDbOf ((b.add_neo4j_graph uri user password
        database).add_sqlite_graph db_path).build.1) "user" = none ∧
    dlookup (graphDbOf ((b.add_neo4j_graph uri user password
        database).add_sqlite_graph db_path).build.1) "password" = none ∧
    dlookup (graphDbOf ((b.add_neo4j_graph uri user password
        database).add_sqlite_graph db_path).build.1) "database" = none := by
  have h := graphDb_add_sqlite (b.add_neo4j_graph uri user password database) db_path
  refine ⟨h, ?_, ?_, ?_, ?_⟩ <;> rw [h] <;> rfl

/-- C4: from any builder state, calling `add_custom_metadata` with fields
M1 and then with fields M2 leaves `metadata` equal to exactly the dict of
M2 — the same value a single call with M2 leaves — so none of M1's fields
survive (overwrite, no merge). -/
theorem C4_metadata_last_write_wins (b : GraphConfigBuilder)
    (m1 m2 : List (String × Value)) :
    dlookup (configurableOf ((b.add_custom_metadata m1).add_custom_metadata
        m2).build.1) "metadata" = some (.dict (ofPairs m2)) ∧
    dlookup (configurableOf ((b.add_custom_metadata m1).add_custom_metadata
        m2).build.1) "metadata" =
      dlookup (configurableOf (b.add_custom_metadata m2).build.1) "metadata" := by
  have h1 := metadata_add_custom (b.add_custom_metadata m1) m2
  have h2 := metadata_add_custom b m2
  exact ⟨h1, h1.trans h2.symm⟩

/-- C5: `create_sqlite_config` (thread id "thread_2", sqlite graph path
"./knowledge_graph.db", memory type "sqlite" with table
"conversation_memory") builds a record whose `graph_db` and `memory` are
exactly the stated dicts. -/
theorem C5_sqlite_config_contents :
    graphDbOf create_sqlite_config =
      [("type", .str "sqlite"), ("path", .str "./knowledge_graph.db")] ∧
    memoryOf create_sqlite_config =
      [("type", .str "sqlite"), ("table", .str "conversation_memory")] :=
  ⟨rfl, rfl⟩

/-- C6: for every builder state, `build` leaves the builder's accumulated
state unchanged, and two consecutive calls with no intervening operation
return structurally equal records. -/
theorem C6_build_stable (b : GraphConfigBuilder) :
    (b.build.2.build).1 = b.build.1 ∧ b.build.2 = b :=
  ⟨rfl, rfl⟩

/-- C7: in `create_advanced_config`, the network graph database's password
equals the NEO4J_PASSWORD environment value when set and the literal
"password" when unset, and — after masking that one password entry — the
resulting record is identical across all environments, so no other field
depends on the environment. -/
theorem C7_password_env (e1 e2 : String → Option String) (pw : String) :
    (e1 "NEO4J_PASSWORD" = some pw →
      passwordOf (create_advanced_config e1) = some (.str pw)) ∧
    (e2 "NEO4J_PASSWORD" = none →
      passwordOf (create_advanced_config e2) = some (.str "password")) ∧
    maskPassword (create_advanced_config e1) =
      maskPassword (create_advanced_config e2) := by
  refine ⟨fun h1 => ?_, fun h2 => ?_, rfl⟩
  · have hx : passwordOf (create_advanced_config e1) =
        some (.str ((e1 "NEO4J_PASSWORD").getD "password")) := rfl
    rw [hx, h1]
    rfl
  · have hx : passwordOf (create_advanced_config e2) =
        some (.str ((e2 "NEO4J_PASSWORD").getD "password")) := rfl
    rw [hx, h2]
    rfl

/-- C7, witness: an environment with NEO4J_PASSWORD = "s3cret" yields
password "s3cret"; the empty environment yields the fallback "password". -/
theorem C7_password_env_witness :
    passwordOf (create_advanced_config envWithPassword) = some (.str "s3cret") ∧
    passwordOf (create_advanced_config envEmpty) = some (.str "password") :=
  ⟨(C7_password_env envWithPassword envEmpty "s3cret").1 (by simp [envWithPassword]),
   (C7_password_env envWithPassword envEmpty "s3cret").2.1 rfl⟩

/-- C8: for all integers a and b, `add_numbers` returns a + b, and for
every city string, `get_weather` returns the fixed-format sentence
"The weather in {city} is sunny and 72°F" (a pure function, no external
call). -/
theorem C8_tools (a b : Int) (city : String) :
    add_numbers a b = a + b ∧
    get_weather city = "The weather in " ++ city ++ " is sunny and 72°F" :=
  ⟨rfl, rfl⟩

/-- C9: if the extra keyword fields of `add_memory_config` themselves
contain a "type" key (keyword names being pairwise distinct, as Python
guarantees), that field's value — not the memory_type tag argument — is
what the resulting `memory` record maps "type" to, because the keyword
fields are splatted after the tag. -/
theorem C9_type_kwarg_overrides (b : GraphConfigBuilder) (memory_type : String)
    (kwargs : List (String × Value)) (v : Value)
    (hnd : (dkeys kwargs).Nodup) (hv : dlookup kwargs "type" = some v) :
    dlookup (memoryOf (b.add_memory_config memory_type kwargs).build.1) "type" =
      some v := by
  rw [memory_add_memory, dlookup_ofPairs, List.reverse_cons, dlookup_append,
    dlookup_reverse kwargs "type" hnd, hv]
  rfl

/-- C9, witness: with tag "sqlite" and keyword field type = "redis", the
built memory record's type is "redis". -/
theorem C9_type_kwarg_overrides_witness :
    dlookup (memoryOf (GraphConfigBuilder.init.add_memory_config "sqlite"
      [("type", .str "redis")]).build.1) "type" = some (.str "redis") :=
  C9_type_kwarg_overrides GraphConfigBuilder.init "sqlite"
    [("type", .str "redis")] (.str "redis") (by decide) rfl

/-- C10: `integrate_with_graph_db` returns the record of
`create_enhanced_config("graph_conversation")` extended with exactly one
additional configurable key, graph_operations, mapping the three operation
names store_entity, find_relationships, query_graph; each of the seven
pre-existing configurable fields is unchanged. -/
theorem C10_graph_operations_extension :
    dkeys (configurableOf integrate_with_graph_db) =
      dkeys (configurableOf (create_enhanced_config "graph_conversation")) ++
        ["graph_operations"] ∧
    dlookup (configurableOf integrate_with_graph_db) "graph_operations" =
      some (.dict graph_operations) ∧
    dkeys graph_operations =
      ["store_entity", "find_relationships", "query_graph"] ∧
    dlookup (configurableOf integrate_with_graph_db) "thread_id" =
      dlookup (configurableOf (create_enhanced_config "graph_conversation")) "thread_id" ∧
    dlookup (configurableOf integrate_with_graph_db) "user_id" =
      dlookup (configurableOf (create_enhanced_config "graph_conversation")) "user_id" ∧
    dlookup (configurableOf integrate_with_graph_db) "session_id" =
      dlookup (configurableOf (create_enhanced_config "graph_conversation")) "session_id" ∧
    dlookup (configurableOf integrate_with_graph_db) "graph_db" =
      dlookup (configurableOf (create_enhanced_config "graph_conversation")) "graph_db" ∧
    dlookup (configurableOf integrate_with_graph_db) "memory" =
      dlookup (configurableOf (create_enhanced_config "graph_conversation")) "memory" ∧
    dlookup (configurableOf integrate_with_graph_db) "checkpoint_store" =
      dlookup (configurableOf (create_enhanced_config "graph_conversation")) "checkpoint_store" ∧
    dlookup (configurableOf integrate_with_graph_db) "metadata" =
      dlookup (configurableOf (create_enhanced_config "graph_conversation")) "metadata" :=
  ⟨rfl, rfl, rfl, rfl, rfl, rfl, rfl, rfl, rfl, rfl⟩
